import Mathlib

/-
  Shallow embedding of the toy-shop simulator (src/streamlit_app.py).

  The round-resolution engine lives in the "Produce, Sell, and End Day"
  button handler (source lines 336-416); game start in the "Start Game"
  handler (lines 205-223); the game-over summary in lines 229-240; the
  history-table totals in display_history_table (lines 61-137).
  Numbers are modelled as rationals (Python ints and floats, exact
  arithmetic); the per-round random draws (production cost, scenario)
  are modelled as explicit inputs to the round resolver.
-/

namespace ToyShop

/-- Truncation toward zero on a rational, as Python's built-in conversion
from a number to an integer (used on the demand expression). -/
def truncQ (q : ℚ) : ℤ := if 0 ≤ q then ⌊q⌋ else ⌈q⌉

/-- The game configuration collected in the sidebar before start
(source lines 165-203). -/
structure Config where
  num_rounds : ℕ
  starting_cash : ℚ
  starting_inventory : ℕ
  min_cost : ℚ
  max_cost : ℚ
  base_demand : ℚ
  demand_coeff : ℚ
  min_price : ℚ
deriving Repr, DecidableEq

/-- One entry of st.session_state.history, exactly the dictionary built at
source lines 376-393. -/
structure RoundRecord where
  round : ℕ
  scenario_name : String
  production_cost : ℚ
  produced : ℕ
  price : ℚ
  demand : ℤ
  sales : ℤ
  revenue : ℚ
  spent : ℚ
  cogs : ℚ
  round_profit : ℚ
  cash_after : ℚ
  inventory_after : ℤ
  inventory_value : ℚ
  inventory_cost : ℚ
  cumulative_profit : ℚ
deriving Repr, DecidableEq

/-- The mutable session state the handlers read and write: cash, inventory,
round counter and the round history. -/
structure GameState where
  cash : ℚ
  inventory : ℤ
  current_round : ℕ
  history : List RoundRecord
deriving Repr, DecidableEq

/-- The per-round data that the source draws at random (production cost at
line 220/412, scenario at line 222/415) together with the player's inputs
(produce_qty, price). -/
structure RoundInput where
  production_cost : ℚ
  produce_qty : ℕ
  price : ℚ
  scenario_name : String
  multiplier : ℚ
deriving Repr, DecidableEq

/-- Source line 344: demand = int(max(0, base_demand + round_effective_coeff * price))
with round_effective_coeff = demand_coeff * multiplier (line 343). -/
def demandCalc (base coeff price mult : ℚ) : ℤ :=
  truncQ (max 0 (base + (coeff * mult) * price))

/-- Source line 321: expected_demand = int(max(0, base_demand + effective_coeff * price))
with effective_coeff = demand_coeff * multiplier (line 290): the display
estimate shown before the sale is committed. -/
def expectedDemand (base coeff price mult : ℚ) : ℤ :=
  truncQ (max 0 (base + (coeff * mult) * price))

/-- total_produced = sum(entry['produced'] for entry in history)
(source lines 325 and 350). -/
def totalProduced (h : List RoundRecord) : ℕ :=
  (h.map RoundRecord.produced).sum

/-- total_spent = sum(entry['spent'] for entry in history)
(source lines 326 and 351). -/
def totalSpent (h : List RoundRecord) : ℚ :=
  (h.map RoundRecord.spent).sum

/-- The weighted-average inventory cost used for COGS, source lines 349-357:
if the history is nonempty and its total produced quantity is positive the
average is total spent over total produced, otherwise the current round's
production cost. The history passed in is the one BEFORE the current round's
entry is appended (line 394 appends only afterwards). -/
def avgInvCost (h : List RoundRecord) (production_cost : ℚ) : ℚ :=
  if h.isEmpty then production_cost
  else if 0 < totalProduced h then totalSpent h / (totalProduced h : ℚ)
  else production_cost

/-- The "Produce, Sell, and End Day" handler, source lines 336-394 and 410:
production (spent, cash, inventory), demand, sales, revenue, weighted-average
cost, COGS, profit, cumulative profit, inventory valuation, the appended
history entry, and the round-counter advance. -/
def resolveRound (cfg : Config) (s : GameState) (inp : RoundInput) :
    GameState × RoundRecord :=
  let spent : ℚ := (inp.produce_qty : ℚ) * inp.production_cost
  let cash1 : ℚ := s.cash - spent
  let inv1 : ℤ := s.inventory + (inp.produce_qty : ℤ)
  let demand : ℤ := demandCalc cfg.base_demand cfg.demand_coeff inp.price inp.multiplier
  let sales : ℤ := min demand inv1
  let revenue : ℚ := (sales : ℚ) * inp.price
  let avg : ℚ := avgInvCost s.history inp.production_cost
  let cogs : ℚ := (sales : ℚ) * avg
  let cash2 : ℚ := cash1 + revenue
  let inv2 : ℤ := inv1 - sales
  let round_profit : ℚ := revenue - cogs
  let cumulative_profit : ℚ :=
    (s.history.map RoundRecord.round_profit).sum + round_profit
  let inventory_value : ℚ := (inv2 : ℚ) * inp.price
  let inventory_cost : ℚ := (inv2 : ℚ) * avg
  let entry : RoundRecord :=
    { round := s.current_round
      scenario_name := inp.scenario_name
      production_cost := inp.production_cost
      produced := inp.produce_qty
      price := inp.price
      demand := demand
      sales := sales
      revenue := revenue
      spent := spent
      cogs := cogs
      round_profit := round_profit
      cash_after := cash2
      inventory_after := inv2
      inventory_value := inventory_value
      inventory_cost := inventory_cost
      cumulative_profit := cumulative_profit }
  ({ cash := cash2
     inventory := inv2
     current_round := s.current_round + 1
     history := s.history ++ [entry] }, entry)

/-- The "Start Game" handler, source lines 205-223: the configuration is
rejected (the game does not start) exactly when min_cost > max_cost;
otherwise the session starts with the configured cash and inventory, round
counter 1 and empty history. -/
def startGame (cfg : Config) : Option GameState :=
  if cfg.min_cost > cfg.max_cost then none
  else some
    { cash := cfg.starting_cash
      inventory := (cfg.starting_inventory : ℤ)
      current_round := 1
      history := [] }

/-- A sequence of resolved rounds folded over the state. -/
def runGame (cfg : Config) (s : GameState) (inps : List RoundInput) : GameState :=
  inps.foldl (fun st inp => (resolveRound cfg st inp).1) s

/-- The game-over summary of source lines 229-240. -/
structure Summary where
  profit : ℚ
  inventory_value : ℚ
  inventory_cost : ℚ
  total_value_created : ℚ
deriving Repr, DecidableEq

/-- Source lines 229-240: profit = cash - starting_cash; inventory is valued
from the last history entry when one exists (value at its price, cost from
its stored inventory_cost), else both are 0; total_value_created =
profit + inventory_cost. -/
def summarize (cfg : Config) (s : GameState) : Summary :=
  let profit : ℚ := s.cash - cfg.starting_cash
  match s.history.getLast? with
  | some last =>
      { profit := profit
        inventory_value := (s.inventory : ℚ) * last.price
        inventory_cost := last.inventory_cost
        total_value_created := profit + last.inventory_cost }
  | none =>
      { profit := profit
        inventory_value := 0
        inventory_cost := 0
        total_value_created := profit + 0 }

/-- The inventory_cost of the last history entry, 0 for an empty history
(source lines 121-127 and 232-238 both use this). -/
def lastInvCost (h : List RoundRecord) : ℚ :=
  match h.getLast? with
  | some last => last.inventory_cost
  | none => 0

/-- The "Total Value Created" metric shown under the history table, source
lines 116-127: the sum of the stored round profits, plus the last entry's
inventory_cost when the table is nonempty. -/
def tableTotalValueCreated (h : List RoundRecord) : ℚ :=
  let cumulative_profit : ℚ := (h.map RoundRecord.round_profit).sum
  match h.getLast? with
  | some last => cumulative_profit + last.inventory_cost
  | none => cumulative_profit

/-- sum(entry['revenue']) over the history (source line 116). -/
def totalRevenue (h : List RoundRecord) : ℚ :=
  (h.map RoundRecord.revenue).sum

/-- sum of the stored cogs fields over the history. -/
def totalCogs (h : List RoundRecord) : ℚ :=
  (h.map RoundRecord.cogs).sum

/-! ### Unfolding lemmas for the round resolver -/

lemma resolveRound_fst_history (cfg : Config) (s : GameState) (inp : RoundInput) :
    (resolveRound cfg s inp).1.history = s.history ++ [(resolveRound cfg s inp).2] := rfl

lemma resolveRound_fst_cash (cfg : Config) (s : GameState) (inp : RoundInput) :
    (resolveRound cfg s inp).1.cash
      = s.cash - (resolveRound cfg s inp).2.spent + (resolveRound cfg s inp).2.revenue := rfl

lemma resolveRound_fst_inventory (cfg : Config) (s : GameState) (inp : RoundInput) :
    (resolveRound cfg s inp).1.inventory
      = s.inventory + (inp.produce_qty : ℤ) - (resolveRound cfg s inp).2.sales := rfl

lemma resolveRound_snd_produced (cfg : Config) (s : GameState) (inp : RoundInput) :
    (resolveRound cfg s inp).2.produced = inp.produce_qty := rfl

lemma resolveRound_snd_spent (cfg : Config) (s : GameState) (inp : RoundInput) :
    (resolveRound cfg s inp).2.spent = (inp.produce_qty : ℚ) * inp.production_cost := rfl

lemma resolveRound_snd_production_cost (cfg : Config) (s : GameState) (inp : RoundInput) :
    (resolveRound cfg s inp).2.production_cost = inp.production_cost := rfl

lemma resolveRound_snd_demand (cfg : Config) (s : GameState) (inp : RoundInput) :
    (resolveRound cfg s inp).2.demand
      = demandCalc cfg.base_demand cfg.demand_coeff inp.price inp.multiplier := rfl

lemma resolveRound_snd_sales (cfg : Config) (s : GameState) (inp : RoundInput) :
    (resolveRound cfg s inp).2.sales
      = min (resolveRound cfg s inp).2.demand (s.inventory + (inp.produce_qty : ℤ)) := rfl

lemma resolveRound_snd_revenue (cfg : Config) (s : GameState) (inp : RoundInput) :
    (resolveRound cfg s inp).2.revenue
      = ((resolveRound cfg s inp).2.sales : ℚ) * inp.price := rfl

lemma resolveRound_snd_cogs (cfg : Config) (s : GameState) (inp : RoundInput) :
    (resolveRound cfg s inp).2.cogs
      = ((resolveRound cfg s inp).2.sales : ℚ) * avgInvCost s.history inp.production_cost := rfl

lemma resolveRound_snd_round_profit (cfg : Config) (s : GameState) (inp : RoundInput) :
    (resolveRound cfg s inp).2.round_profit
      = (resolveRound cfg s inp).2.revenue - (resolveRound cfg s inp).2.cogs := rfl

lemma resolveRound_snd_cumulative_profit (cfg : Config) (s : GameState) (inp : RoundInput) :
    (resolveRound cfg s inp).2.cumulative_profit
      = (s.history.map RoundRecord.round_profit).sum
        + (resolveRound cfg s inp).2.round_profit := rfl

lemma runGame_nil (cfg : Config) (s : GameState) : runGame cfg s [] = s := rfl

lemma runGame_cons (cfg : Config) (s : GameState) (i : RoundInput) (is : List RoundInput) :
    runGame cfg s (i :: is) = runGame cfg (resolveRound cfg s i).1 is := rfl

/-! ### History invariants preserved by the resolver -/

/-- Record r of the history was costed with the weighted-average cost of the
records strictly before it (the history as it stood when the round resolved). -/
def cogsOK (h : List RoundRecord) : Prop :=
  ∀ (r : ℕ) (hr : r < h.length),
    (h.get ⟨r, hr⟩).cogs
      = ((h.get ⟨r, hr⟩).sales : ℚ)
        * avgInvCost (h.take r) (h.get ⟨r, hr⟩).production_cost

/-- Record r's cumulative profit is the sum of the round profits of records
0..r. -/
def cumOK (h : List RoundRecord) : Prop :=
  ∀ (r : ℕ) (hr : r < h.length),
    (h.get ⟨r, hr⟩).cumulative_profit
      = ((h.take (r + 1)).map RoundRecord.round_profit).sum

/-- Every record's round profit is its revenue minus its cogs. -/
def rpOK (h : List RoundRecord) : Prop :=
  ∀ e ∈ h, e.round_profit = e.revenue - e.cogs

/-- The session cash equals the starting cash plus all recorded revenue minus
all recorded production spending. -/
def cashConsistent (cfg : Config) (s : GameState) : Prop :=
  s.cash = cfg.starting_cash + totalRevenue s.history - totalSpent s.history

lemma cogsOK_snoc (h : List RoundRecord) (e : RoundRecord) (hh : cogsOK h)
    (he : e.cogs = (e.sales : ℚ) * avgInvCost h e.production_cost) :
    cogsOK (h ++ [e]) := by
  intro r hr
  have hr' : r < h.length + 1 := by simpa using hr
  rcases lt_or_eq_of_le (Nat.lt_succ_iff.mp hr') with hlt | heq
  · have hget : (h ++ [e]).get ⟨r, hr⟩ = h.get ⟨r, hlt⟩ := by
      simp [List.get_eq_getElem, List.getElem_append_left hlt]
    have htake : (h ++ [e]).take r = h.take r :=
      List.take_append_of_le_length (le_of_lt hlt)
    rw [hget, htake]
    exact hh r hlt
  · subst heq
    have hget : (h ++ [e]).get ⟨h.length, hr⟩ = e := by
      simp [List.get_eq_getElem]
    have htake : (h ++ [e]).take h.length = h := List.take_left h [e]
    rw [hget, htake]
    exact he

lemma cogsOK_resolveRound (cfg : Config) (s : GameState) (inp : RoundInput)
    (hh : cogsOK s.history) : cogsOK (resolveRound cfg s inp).1.history := by
  rw [resolveRound_fst_history]
  refine cogsOK_snoc _ _ hh ?_
  rw [resolveRound_snd_cogs, resolveRound_snd_production_cost]

lemma cogsOK_runGame (cfg : Config) (inps : List RoundInput) :
    ∀ s : GameState, cogsOK s.history → cogsOK (runGame cfg s inps).history := by
  induction inps with
  | nil => intro s hs; exact hs
  | cons i is ih =>
      intro s hs
      rw [runGame_cons]
      exact ih _ (cogsOK_resolveRound cfg s i hs)

lemma cumOK_snoc (h : List RoundRecord) (e : RoundRecord) (hh : cumOK h)
    (he : e.cumulative_profit
      = (h.map RoundRecord.round_profit).sum + e.round_profit) :
    cumOK (h ++ [e]) := by
  intro r hr
  have hr' : r < h.length + 1 := by simpa using hr
  rcases lt_or_eq_of_le (Nat.lt_succ_iff.mp hr') with hlt | heq
  · have hget : (h ++ [e]).get ⟨r, hr⟩ = h.get ⟨r, hlt⟩ := by
      simp [List.get_eq_getElem, List.getElem_append_left hlt]
    have htake : (h ++ [e]).take (r + 1) = h.take (r + 1) :=
      List.take_append_of_le_length (Nat.succ_le_of_lt hlt)
    rw [hget, htake]
    exact hh r hlt
  · subst heq
    have hget : (h ++ [e]).get ⟨h.length, hr⟩ = e := by
      simp [List.get_eq_getElem]
    have htake : (h ++ [e]).take (h.length + 1) = h ++ [e] := by
      apply List.take_of_length_le
      simp
    rw [hget, htake, he]
    simp

lemma cumOK_resolveRound (cfg : Config) (s : GameState) (inp : RoundInput)
    (hh : cumOK s.history) : cumOK (resolveRound cfg s inp).1.history := by
  rw [resolveRound_fst_history]
  exact cumOK_snoc _ _ hh (resolveRound_snd_cumulative_profit cfg s inp)

lemma cumOK_runGame (cfg : Config) (inps : List RoundInput) :
    ∀ s : GameState, cumOK s.history → cumOK (runGame cfg s inps).history := by
  induction inps with
  | nil => intro s hs; exact hs
  | cons i is ih =>
      intro s hs
      rw [runGame_cons]
      exact ih _ (cumOK_resolveRound cfg s i hs)

lemma rpOK_resolveRound (cfg : Config) (s : GameState) (inp : RoundInput)
    (hh : rpOK s.history) : rpOK (resolveRound cfg s inp).1.history := by
  rw [resolveRound_fst_history]
  intro e he
  rcases List.mem_append.mp he with h1 | h2
  · exact hh e h1
  · have : e = (resolveRound cfg s inp).2 := by simpa using h2
    subst this
    exact resolveRound_snd_round_profit cfg s inp

lemma rpOK_runGame (cfg : Config) (inps : List RoundInput) :
    ∀ s : GameState, rpOK s.history → rpOK (runGame cfg s inps).history := by
  induction inps with
  | nil => intro s hs; exact hs
  | cons i is ih =>
      intro s hs
      rw [runGame_cons]
      exact ih _ (rpOK_resolveRound cfg s i hs)

lemma cashConsistent_resolveRound (cfg : Config) (s : GameState) (inp : RoundInput)
    (hh : cashConsistent cfg s) : cashConsistent cfg (resolveRound cfg s inp).1 := by
  unfold cashConsistent at hh ⊢
  rw [resolveRound_fst_cash, resolveRound_fst_history, hh]
  unfold totalRevenue totalSpent
  simp
  ring

lemma cashConsistent_runGame (cfg : Config) (inps : List RoundInput) :
    ∀ s : GameState, cashConsistent cfg s → cashConsistent cfg (runGame cfg s inps) := by
  induction inps with
  | nil => intro s hs; exact hs
  | cons i is ih =>
      intro s hs
      rw [runGame_cons]
      exact ih _ (cashConsistent_resolveRound cfg s i hs)

lemma runGame_map_produced (cfg : Config) (inps : List RoundInput) :
    ∀ s : GameState,
      (runGame cfg s inps).history.map RoundRecord.produced
        = s.history.map RoundRecord.produced ++ inps.map RoundInput.produce_qty := by
  induction inps with
  | nil => intro s; simp [runGame_nil]
  | cons i is ih =>
      intro s
      rw [runGame_cons, ih, resolveRound_fst_history]
      simp [resolveRound_snd_produced]

lemma runGame_map_spent (cfg : Config) (inps : List RoundInput) :
    ∀ s : GameState,
      (runGame cfg s inps).history.map RoundRecord.spent
        = s.history.map RoundRecord.spent
          ++ inps.map (fun i => (i.produce_qty : ℚ) * i.production_cost) := by
  induction inps with
  | nil => intro s; simp [runGame_nil]
  | cons i is ih =>
      intro s
      rw [runGame_cons, ih, resolveRound_fst_history]
      simp [resolveRound_snd_spent]

/-- The weighted-average cost reads the history only through its produced and
spent columns. -/
lemma avgInvCost_congr (h₁ h₂ : List RoundRecord) (pc : ℚ)
    (hp : h₁.map RoundRecord.produced = h₂.map RoundRecord.produced)
    (hs : h₁.map RoundRecord.spent = h₂.map RoundRecord.spent) :
    avgInvCost h₁ pc = avgInvCost h₂ pc := by
  have hlen : h₁.length = h₂.length := by
    have h := congrArg List.length hp
    simpa using h
  have hemp : h₁.isEmpty = h₂.isEmpty := by
    cases h₁ <;> cases h₂ <;> simp_all
  unfold avgInvCost totalProduced totalSpent
  rw [hp, hs, hemp]

/-- When the history records no production at all, the weighted-average cost
falls back to the current round's production cost. -/
lemma avgInvCost_of_no_production (h : List RoundRecord) (pc : ℚ)
    (hz : totalProduced h = 0) : avgInvCost h pc = pc := by
  unfold avgInvCost
  rw [hz]
  simp

lemma sum_round_profit_eq (h : List RoundRecord) (hrp : rpOK h) :
    (h.map RoundRecord.round_profit).sum = totalRevenue h - totalCogs h := by
  induction h with
  | nil => simp [totalRevenue, totalCogs]
  | cons e t ih =>
      have he : e.round_profit = e.revenue - e.cogs := hrp e (by simp)
      have ht : rpOK t := fun x hx => hrp x (by simp [hx])
      unfold totalRevenue totalCogs at ih ⊢
      simp only [List.map_cons, List.sum_cons, he, ih ht]
      ring

lemma tableTotalValueCreated_eq (h : List RoundRecord) :
    tableTotalValueCreated h
      = (h.map RoundRecord.round_profit).sum + lastInvCost h := by
  rcases hl : h.getLast? with _ | last <;>
    simp [tableTotalValueCreated, lastInvCost, hl]

lemma summarize_total_value_created (cfg : Config) (s : GameState) :
    (summarize cfg s).total_value_created
      = (s.cash - cfg.starting_cash) + lastInvCost s.history := by
  rcases hl : s.history.getLast? with _ | last <;>
    simp [summarize, lastInvCost, hl]

lemma summarize_profit (cfg : Config) (s : GameState) :
    (summarize cfg s).profit = s.cash - cfg.starting_cash := by
  rcases hl : s.history.getLast? with _ | last <;> simp [summarize, hl]

lemma summarize_inventory_cost (cfg : Config) (s : GameState) :
    (summarize cfg s).inventory_cost = lastInvCost s.history := by
  rcases hl : s.history.getLast? with _ | last <;>
    simp [summarize, lastInvCost, hl]

lemma startGame_eq_some (cfg : Config) (s : GameState) (h : startGame cfg = some s) :
    s.cash = cfg.starting_cash ∧ s.inventory = (cfg.starting_inventory : ℤ)
      ∧ s.current_round = 1 ∧ s.history = [] := by
  unfold startGame at h
  by_cases hc : cfg.min_cost > cfg.max_cost
  · rw [if_pos hc] at h
    exact absurd h (by simp)
  · rw [if_neg hc] at h
    simp only [Option.some.injEq] at h
    subst h
    exact ⟨rfl, rfl, rfl, rfl⟩

/-- avgInvCost collapses to a single test on the cumulative produced quantity:
an empty history also has zero cumulative production. -/
lemma avgInvCost_eq_ite (h : List RoundRecord) (pc : ℚ) :
    avgInvCost h pc
      = if 0 < totalProduced h
        then totalSpent h / (totalProduced h : ℚ) else pc := by
  cases h <;> simp [avgInvCost, totalProduced]

/-! ### Concrete configurations, states and inputs used in the scenarios -/

/-- The configuration of the spec's worked scenario. -/
def cfgA : Config :=
  { num_rounds := 1, starting_cash := 200, starting_inventory := 0,
    min_cost := 10, max_cost := 10, base_demand := 50, demand_coeff := -2,
    min_price := 10 }

/-- The state the Start Game handler builds from cfgA. -/
def s0A : GameState :=
  { cash := 200, inventory := 0, current_round := 1, history := [] }

/-- Round 1 of the worked scenario: cost 10, produce 20, price 15, neutral
scenario multiplier. -/
def inpA : RoundInput :=
  { production_cost := 10, produce_qty := 20, price := 15,
    scenario_name := "Baseline", multiplier := 1 }

/-- A 3-round configuration exercising the weighted-average example. -/
def cfgB : Config :=
  { num_rounds := 3, starting_cash := 1000, starting_inventory := 0,
    min_cost := 8, max_cost := 12, base_demand := 50, demand_coeff := -2,
    min_price := 10 }

/-- The state the Start Game handler builds from cfgB. -/
def s0B : GameState :=
  { cash := 1000, inventory := 0, current_round := 1, history := [] }

/-- Round 1 of the 3-round example: produce 10 units at cost 8. -/
def inpB1 : RoundInput :=
  { production_cost := 8, produce_qty := 10, price := 15,
    scenario_name := "A", multiplier := 1 }

/-- Round 2 of the 3-round example: produce nothing (cost drawn 11). -/
def inpB2 : RoundInput :=
  { production_cost := 11, produce_qty := 0, price := 15,
    scenario_name := "B", multiplier := 1 }

/-- Round 3 of the 3-round example: produce 5 units at cost 12. -/
def inpB3 : RoundInput :=
  { production_cost := 12, produce_qty := 5, price := 15,
    scenario_name := "C", multiplier := 1 }

/-- A 1-round game that ends holding unsold inventory: produce 10 at cost 8,
price 22 so demand is 6 and 4 units remain. -/
def cfgD : Config :=
  { num_rounds := 1, starting_cash := 200, starting_inventory := 0,
    min_cost := 8, max_cost := 12, base_demand := 50, demand_coeff := -2,
    min_price := 10 }

/-- The state the Start Game handler builds from cfgD. -/
def s0D : GameState :=
  { cash := 200, inventory := 0, current_round := 1, history := [] }

/-- The single round of the cfgD game. -/
def inpD : RoundInput :=
  { production_cost := 8, produce_qty := 10, price := 22,
    scenario_name := "A", multiplier := 1 }

/-- The state the Start Game handler builds from cfgA with starting
inventory 5 instead of 0. -/
def s0A5 : GameState :=
  { cash := 200, inventory := 5, current_round := 1, history := [] }

/-- A round with no production: cost drawn 9, price 12, nothing produced. -/
def inpZ : RoundInput :=
  { production_cost := 9, produce_qty := 0, price := 12,
    scenario_name := "Z", multiplier := 1 }

/-! ### Claims -/

/-- C2: for the configuration {num_rounds=1, starting_cash=200,
starting_inventory=0, min_cost=10, max_cost=10, base_demand=50,
demand_coeff=-2, min_price=10}, the game starts with cash 200, inventory 0,
round 1, and resolving round 1 with production_cost=10, produce_qty=20,
price=15 and scenario multiplier 1.0 yields spent=200, demand=20, sales=20,
revenue=300, avg-based cogs=200, round_profit=100, cash_after=300 and
inventory_after=0. -/
theorem scenario_round_one_exact_values :
    startGame cfgA = some s0A
    ∧ (resolveRound cfgA s0A inpA).2.spent = 200
    ∧ (resolveRound cfgA s0A inpA).2.demand = 20
    ∧ (resolveRound cfgA s0A inpA).2.sales = 20
    ∧ (resolveRound cfgA s0A inpA).2.revenue = 300
    ∧ avgInvCost s0A.history inpA.production_cost = 10
    ∧ (resolveRound cfgA s0A inpA).2.cogs = 200
    ∧ (resolveRound cfgA s0A inpA).2.round_profit = 100
    ∧ (resolveRound cfgA s0A inpA).2.cash_after = 300
    ∧ (resolveRound cfgA s0A inpA).2.inventory_after = 0
    ∧ (resolveRound cfgA s0A inpA).1.cash = 300
    ∧ (resolveRound cfgA s0A inpA).1.inventory = 0 := by
  norm_num [startGame, resolveRound, demandCalc, truncQ, avgInvCost,
    totalProduced, totalSpent, cfgA, s0A, inpA]

/-- C3: the demand computation is the floor of max(0, base + (coeff *
multiplier) * price) — truncation toward zero agrees with the floor because
the argument is clamped nonnegative — and for price ≥ 0 (indeed for any
price) the result is never negative. -/
theorem demand_floor_formula_and_nonneg (base coeff price mult : ℚ)
    (hp : 0 ≤ price) :
    demandCalc base coeff price mult = ⌊max 0 (base + (coeff * mult) * price)⌋
      ∧ 0 ≤ demandCalc base coeff price mult := by
  have hfloor : demandCalc base coeff price mult
      = ⌊max 0 (base + (coeff * mult) * price)⌋ := by
    unfold demandCalc truncQ
    rw [if_pos (le_max_left 0 (base + (coeff * mult) * price))]
  refine ⟨hfloor, ?_⟩
  rw [hfloor]
  exact Int.floor_nonneg.mpr (le_max_left 0 (base + (coeff * mult) * price))

/-- Witness for C3 at base 50, coeff -2, price 15, multiplier 1. -/
theorem demand_floor_formula_and_nonneg_witness :
    (0:ℚ) ≤ 15
      ∧ (demandCalc 50 (-2) 15 1 = ⌊max 0 ((50:ℚ) + ((-2) * 1) * 15)⌋
          ∧ 0 ≤ demandCalc 50 (-2) 15 1) :=
  ⟨by norm_num, demand_floor_formula_and_nonneg 50 (-2) 15 1 (by norm_num)⟩

/-- C4: the display estimate of demand is deterministic — identical inputs
give identical output — and equals, exactly, the authoritative demand that
the round resolver computes for the same price and scenario multiplier. -/
theorem display_estimate_matches_resolver (cfg : Config) (s : GameState)
    (inp : RoundInput) :
    expectedDemand cfg.base_demand cfg.demand_coeff inp.price inp.multiplier
        = expectedDemand cfg.base_demand cfg.demand_coeff inp.price inp.multiplier
      ∧ expectedDemand cfg.base_demand cfg.demand_coeff inp.price inp.multiplier
        = demandCalc cfg.base_demand cfg.demand_coeff inp.price inp.multiplier
      ∧ expectedDemand cfg.base_demand cfg.demand_coeff inp.price inp.multiplier
        = (resolveRound cfg s inp).2.demand :=
  ⟨rfl, rfl, rfl⟩

/-- C5: starting from a state with nonnegative inventory, sales is
min(demand, inventory after production), hence never exceeds the inventory
available before the sale, and the resulting inventory is nonnegative. -/
theorem sales_capped_by_inventory (cfg : Config) (s : GameState)
    (inp : RoundInput) (hinv : 0 ≤ s.inventory) :
    (resolveRound cfg s inp).2.sales
        = min (resolveRound cfg s inp).2.demand (s.inventory + (inp.produce_qty : ℤ))
      ∧ (resolveRound cfg s inp).2.sales ≤ s.inventory + (inp.produce_qty : ℤ)
      ∧ 0 ≤ (resolveRound cfg s inp).1.inventory := by
  refine ⟨resolveRound_snd_sales cfg s inp, ?_, ?_⟩
  · rw [resolveRound_snd_sales]
    exact min_le_right _ _
  · rw [resolveRound_fst_inventory, resolveRound_snd_sales]
    exact sub_nonneg.mpr (min_le_right _ _)

/-- Witness for C5 at the worked scenario's configuration and inputs. -/
theorem sales_capped_by_inventory_witness :
    (0:ℤ) ≤ s0A.inventory
      ∧ ((resolveRound cfgA s0A inpA).2.sales
          = min (resolveRound cfgA s0A inpA).2.demand
              (s0A.inventory + (inpA.produce_qty : ℤ))
        ∧ (resolveRound cfgA s0A inpA).2.sales
            ≤ s0A.inventory + (inpA.produce_qty : ℤ)
        ∧ 0 ≤ (resolveRound cfgA s0A inpA).1.inventory) :=
  ⟨by norm_num [s0A], sales_capped_by_inventory cfgA s0A inpA (by norm_num [s0A])⟩

/-- C8: the Start Game handler rejects a configuration, and no state is
produced, exactly when min_cost > max_cost; when min_cost ≤ max_cost the
game starts with the configured cash, the configured inventory, round
counter 1 and an empty history. -/
theorem start_game_rejects_iff_min_gt_max (cfg : Config) :
    (startGame cfg = none ↔ cfg.max_cost < cfg.min_cost)
      ∧ (cfg.min_cost ≤ cfg.max_cost →
          startGame cfg = some
            { cash := cfg.starting_cash
              inventory := (cfg.starting_inventory : ℤ)
              current_round := 1
              history := [] }) := by
  unfold startGame
  by_cases hc : cfg.min_cost > cfg.max_cost
  · rw [if_pos hc]
    exact ⟨iff_of_true rfl hc, fun hle => absurd hc (not_lt.mpr hle)⟩
  · rw [if_neg hc]
    exact ⟨iff_of_false (by simp) hc, fun _ => rfl⟩

/-- Witness for C8: cfgA (min_cost = max_cost = 10) is accepted and yields
the expected initial state. -/
theorem start_game_rejects_iff_min_gt_max_witness :
    startGame cfgA = some
      { cash := cfgA.starting_cash
        inventory := (cfgA.starting_inventory : ℤ)
        current_round := 1
        history := [] } :=
  (start_game_rejects_iff_min_gt_max cfgA).2 (by norm_num [cfgA])

/-- C1 counterexample: on the spec's own example — three rounds producing
10, 0, 5 units at costs 8, 11, 12, all sold against ample demand — round 3's
stored cogs is 40 = sales * (80/10): the average uses only the rounds BEFORE
the in-progress one, not 5 * ((10*8 + 5*12)/15) = 140/3 as the claim's
include-current-round average would give. -/
theorem cogs_excludes_current_round_production_cex :
    startGame cfgB = some s0B
    ∧ (runGame cfgB s0B [inpB1, inpB2, inpB3]).history.map RoundRecord.produced
        = [10, 0, 5]
    ∧ (runGame cfgB s0B [inpB1, inpB2, inpB3]).history.map RoundRecord.production_cost
        = [8, 11, 12]
    ∧ (runGame cfgB s0B [inpB1, inpB2, inpB3]).history.map RoundRecord.sales
        = [10, 0, 5]
    ∧ (runGame cfgB s0B [inpB1, inpB2, inpB3]).history.map RoundRecord.cogs
        = [80, 0, 40]
    ∧ (40 : ℚ) ≠ 5 * ((10 * 8 + 5 * 12 : ℚ) / 15) := by
  norm_num [startGame, runGame, List.foldl, resolveRound, demandCalc, truncQ,
    avgInvCost, totalProduced, totalSpent, cfgB, s0B, inpB1, inpB2, inpB3]

/-- C1 amended: in every reachable game, each round's cogs equals its sales
times the weighted-average cost of the rounds strictly before it (cumulative
spend over cumulative units of the PRIOR rounds), and the average falls back
to the current round's production cost exactly when those prior rounds
produced nothing (in particular in round 1). -/
theorem cogs_weighted_avg_over_prior_rounds (cfg : Config) (s0 : GameState)
    (inps : List RoundInput) (h : startGame cfg = some s0) :
    cogsOK (runGame cfg s0 inps).history
    ∧ ∀ (hist : List RoundRecord) (pc : ℚ),
        avgInvCost hist pc
          = if 0 < totalProduced hist
            then totalSpent hist / (totalProduced hist : ℚ) else pc := by
  constructor
  · apply cogsOK_runGame
    obtain ⟨-, -, -, hh⟩ := startGame_eq_some cfg s0 h
    rw [hh]
    intro r hr
    simp at hr
  · exact avgInvCost_eq_ite

/-- Witness for the amended C1 on the worked one-round scenario. -/
theorem cogs_weighted_avg_over_prior_rounds_witness :
    cogsOK (runGame cfgA s0A [inpA]).history
    ∧ avgInvCost [] 7
        = if 0 < totalProduced ([] : List RoundRecord)
          then totalSpent ([] : List RoundRecord)
            / (totalProduced ([] : List RoundRecord) : ℚ) else 7 :=
  ⟨(cogs_weighted_avg_over_prior_rounds cfgA s0A [inpA]
      (by norm_num [startGame, cfgA, s0A])).1,
   (cogs_weighted_avg_over_prior_rounds cfgA s0A [inpA]
      (by norm_num [startGame, cfgA, s0A])).2 [] 7⟩

/-- C6: in every reachable game, each history record's cumulative_profit is
the sum of the round_profit of the records up to and including it, and every
record's round_profit is its revenue minus its cogs. -/
theorem cumulative_profit_is_running_sum (cfg : Config) (s0 : GameState)
    (inps : List RoundInput) (h : startGame cfg = some s0) :
    cumOK (runGame cfg s0 inps).history
      ∧ rpOK (runGame cfg s0 inps).history := by
  obtain ⟨-, -, -, hh⟩ := startGame_eq_some cfg s0 h
  constructor
  · apply cumOK_runGame
    rw [hh]
    intro r hr
    simp at hr
  · apply rpOK_runGame
    rw [hh]
    intro e he
    simp at he

/-- Witness for C6 on the worked one-round scenario. -/
theorem cumulative_profit_is_running_sum_witness :
    cumOK (runGame cfgA s0A [inpA]).history
      ∧ rpOK (runGame cfgA s0A [inpA]).history :=
  cumulative_profit_is_running_sum cfgA s0A [inpA]
    (by norm_num [startGame, cfgA, s0A])

/-- C7: the game-over total value created is exactly cash profit (final cash
minus starting cash) plus the cost-basis inventory valuation stored in the
last record — and it is NOT in general profit plus the mark-to-market
inventory_value, as the cfgD game (4 unsold units, cost basis 8, price 22)
shows. -/
theorem total_value_created_is_cost_basis :
    (∀ (cfg : Config) (s : GameState),
        (summarize cfg s).total_value_created
            = (s.cash - cfg.starting_cash) + (summarize cfg s).inventory_cost
          ∧ (summarize cfg s).profit = s.cash - cfg.starting_cash)
    ∧ (summarize cfgD (runGame cfgD s0D [inpD])).total_value_created
        ≠ (summarize cfgD (runGame cfgD s0D [inpD])).profit
          + (summarize cfgD (runGame cfgD s0D [inpD])).inventory_value := by
  constructor
  · intro cfg s
    rw [summarize_total_value_created, summarize_profit, summarize_inventory_cost]
    exact ⟨rfl, rfl⟩
  · norm_num [summarize, runGame, List.foldl, resolveRound, demandCalc, truncQ,
      avgInvCost, totalProduced, totalSpent, cfgD, s0D, inpD]

/-- C9 counterexample: for the cfgD game (one round: produce 10 at cost 8,
sell 6 at price 22, keep 4), the game-over screen's Total Value Created is
84 while the history-table metric is 116 — the two displayed computations
disagree. -/
theorem table_vs_game_over_total_value_cex :
    startGame cfgD = some s0D
    ∧ (summarize cfgD (runGame cfgD s0D [inpD])).total_value_created = 84
    ∧ tableTotalValueCreated (runGame cfgD s0D [inpD]).history = 116
    ∧ (84 : ℚ) ≠ 116 := by
  norm_num [startGame, summarize, tableTotalValueCreated, runGame, List.foldl,
    resolveRound, demandCalc, truncQ, avgInvCost, totalProduced, totalSpent,
    cfgD, s0D, inpD]

/-- C9 amended: in every reachable game the history-table Total Value
Created exceeds the game-over one by exactly total production spending minus
total cogs; the two agree only when those coincide. -/
theorem table_total_value_offset_from_game_over (cfg : Config) (s0 : GameState)
    (inps : List RoundInput) (h : startGame cfg = some s0) :
    tableTotalValueCreated (runGame cfg s0 inps).history
      = (summarize cfg (runGame cfg s0 inps)).total_value_created
        + (totalSpent (runGame cfg s0 inps).history
            - totalCogs (runGame cfg s0 inps).history) := by
  obtain ⟨hcash, -, -, hhist⟩ := startGame_eq_some cfg s0 h
  have hrp : rpOK (runGame cfg s0 inps).history := by
    apply rpOK_runGame
    rw [hhist]
    intro e he
    simp at he
  have hcc : cashConsistent cfg (runGame cfg s0 inps) := by
    apply cashConsistent_runGame
    unfold cashConsistent
    rw [hhist, hcash]
    simp [totalRevenue, totalSpent]
  rw [tableTotalValueCreated_eq, sum_round_profit_eq _ hrp,
    summarize_total_value_created]
  unfold cashConsistent at hcc
  rw [hcc]
  ring

/-- Witness for the amended C9 on the worked one-round scenario. -/
theorem table_total_value_offset_from_game_over_witness :
    tableTotalValueCreated (runGame cfgA s0A [inpA]).history
      = (summarize cfgA (runGame cfgA s0A [inpA])).total_value_created
        + (totalSpent (runGame cfgA s0A [inpA]).history
            - totalCogs (runGame cfgA s0A [inpA]).history) :=
  table_total_value_offset_from_game_over cfgA s0A [inpA]
    (by norm_num [startGame, cfgA, s0A])

/-- C10: the weighted-average cost sums only production spend and produced
units, so the starting inventory never affects it — two games differing only
in starting inventory see identical averages at every round — and when no
round ever produces, every sale of starting-inventory units is costed at
that round's drawn production cost via the fallback. -/
theorem starting_inventory_carries_no_cost_basis :
    (∀ (cfg : Config) (n : ℕ) (s₁ s₂ : GameState) (inps : List RoundInput)
        (pc : ℚ) (r : ℕ),
        startGame cfg = some s₁ →
        startGame { cfg with starting_inventory := n } = some s₂ →
        avgInvCost ((runGame cfg s₁ inps).history.take r) pc
          = avgInvCost
              ((runGame { cfg with starting_inventory := n } s₂ inps).history.take r)
              pc)
    ∧ (∀ (cfg : Config) (s0 : GameState) (inps : List RoundInput),
        startGame cfg = some s0 → (∀ i ∈ inps, i.produce_qty = 0) →
        ∀ e ∈ (runGame cfg s0 inps).history,
          e.cogs = (e.sales : ℚ) * e.production_cost) := by
  constructor
  · intro cfg n s₁ s₂ inps pc r h1 h2
    obtain ⟨-, -, -, hh1⟩ := startGame_eq_some _ _ h1
    obtain ⟨-, -, -, hh2⟩ := startGame_eq_some _ _ h2
    apply avgInvCost_congr
    · rw [List.map_take, List.map_take, runGame_map_produced cfg inps s₁,
        runGame_map_produced _ inps s₂, hh1, hh2]
    · rw [List.map_take, List.map_take, runGame_map_spent cfg inps s₁,
        runGame_map_spent _ inps s₂, hh1, hh2]
  · intro cfg s0 inps h hz e he
    obtain ⟨-, -, -, hh⟩ := startGame_eq_some _ _ h
    have hok : cogsOK (runGame cfg s0 inps).history := by
      apply cogsOK_runGame
      rw [hh]
      intro r hr
      simp at hr
    obtain ⟨r, hre⟩ := List.mem_iff_get.mp he
    have hzero : totalProduced ((runGame cfg s0 inps).history.take r.1) = 0 := by
      unfold totalProduced
      apply List.sum_eq_zero
      intro x hx
      rw [List.map_take, runGame_map_produced cfg inps s0, hh] at hx
      have hx' : x ∈ (inps.map RoundInput.produce_qty) :=
        List.take_subset _ _ (by simpa using hx)
      obtain ⟨i, hi, hix⟩ := List.mem_map.mp hx'
      rw [← hix]
      exact hz i hi
    have hc := hok r.1 r.2
    rw [avgInvCost_of_no_production _ _ hzero] at hc
    simp only [Fin.eta] at hc
    rw [hre] at hc
    exact hc

/-- Witness for C10: games from cfgA with starting inventory 0 and 5 see the
same round-1 average cost, and a no-production round on a 5-unit starting
inventory costs its 5 sold units at the drawn production cost 9. -/
theorem starting_inventory_carries_no_cost_basis_witness :
    avgInvCost ((runGame cfgA s0A [inpA]).history.take 1) 7
      = avgInvCost
          ((runGame { cfgA with starting_inventory := 5 } s0A5 [inpA]).history.take 1)
          7
    ∧ ((resolveRound { cfgA with starting_inventory := 5 } s0A5 inpZ).2.cogs
        = ((resolveRound { cfgA with starting_inventory := 5 } s0A5 inpZ).2.sales : ℚ)
          * (resolveRound { cfgA with starting_inventory := 5 } s0A5 inpZ).2.production_cost) :=
  ⟨(starting_inventory_carries_no_cost_basis).1 cfgA 5 s0A s0A5 [inpA] 7 1
      (by norm_num [startGame, cfgA, s0A])
      (by norm_num [startGame, cfgA, s0A5]),
   (starting_inventory_carries_no_cost_basis).2 { cfgA with starting_inventory := 5 }
      s0A5 [inpZ]
      (by norm_num [startGame, cfgA, s0A5])
      (by intro i hi; rw [List.mem_singleton] at hi; rw [hi]; rfl)
      (resolveRound { cfgA with starting_inventory := 5 } s0A5 inpZ).2
      (by rw [runGame_cons, runGame_nil, resolveRound_fst_history]
          simp [s0A5])⟩

end ToyShop
